import Mathlib

/-!
Shallow embedding of the travel-planning multi-agent system
(planner/coordinator, hotel capability agent, car capability agent)
and proofs about its coordination, formatting and error-handling logic.

Python strings are modelled as `List Char`; Python dicts/JSON values are
modelled as explicit inductive types; wall-clock readings and network
outcomes are passed as explicit parameters.
-/

namespace TravelPlanning

/-! ## Decimal rendering of natural numbers

Models Python's decimal formatting (`str(n)`, zero-padded `f"{n:04d}"` and
`strftime` fields), used by the booking-id and timestamp builders. -/

/-- The ASCII digit character for `n % 10`. -/
def digitChar (n : Nat) : Char := Char.ofNat (48 + n % 10)

/-- Digit-list builder with explicit fuel (structural recursion so that
terms reduce inside the kernel). -/
def natDecimalAux : Nat → Nat → List Char
  | 0, _ => []
  | fuel + 1, n =>
    if n < 10 then [digitChar n]
    else natDecimalAux fuel (n / 10) ++ [digitChar (n % 10)]

/-- Decimal rendering of a natural number, most significant digit first
(Python `str(n)` for nonnegative `n`). -/
def natDecimal (n : Nat) : List Char := natDecimalAux (n + 1) n

theorem natDecimalAux_congr :
    ∀ n f1 f2, n < f1 → n < f2 → natDecimalAux f1 n = natDecimalAux f2 n := by
  intro n
  induction n using Nat.strong_induction_on with
  | _ n ih =>
    intro f1 f2 h1 h2
    cases f1 with
    | zero => omega
    | succ g1 =>
      cases f2 with
      | zero => omega
      | succ g2 =>
        simp only [natDecimalAux]
        by_cases hn : n < 10
        · rw [if_pos hn, if_pos hn]
        · rw [if_neg hn, if_neg hn]
          have hd : n / 10 < n := Nat.div_lt_self (by omega) (by omega)
          rw [ih (n / 10) hd g1 g2 (by omega) (by omega)]

/-- The recursion the decimal rendering satisfies. -/
theorem natDecimal_eq (n : Nat) :
    natDecimal n =
      if n < 10 then [digitChar n]
      else natDecimal (n / 10) ++ [digitChar (n % 10)] := by
  show natDecimalAux (n + 1) n = _
  simp only [natDecimalAux]
  by_cases hn : n < 10
  · rw [if_pos hn, if_pos hn]
  · rw [if_neg hn, if_neg hn]
    have hd : n / 10 < n := Nat.div_lt_self (by omega) (by omega)
    show natDecimalAux n (n / 10) ++ _ = natDecimalAux (n / 10 + 1) (n / 10) ++ _
    rw [natDecimalAux_congr (n / 10) n (n / 10 + 1) (by omega) (by omega)]

/-- Zero-pad a decimal rendering on the left to width `k`
(Python `f"{n:0kd}"`, also `strftime` zero-padded fields). -/
def padLeft (k n : Nat) : List Char :=
  List.replicate (k - (natDecimal n).length) '0' ++ natDecimal n

/-- Read a digit string back as a number (proof tool, not part of the code). -/
def charsToNat (l : List Char) : Nat :=
  l.foldl (fun a c => 10 * a + (c.toNat - 48)) 0

theorem digitChar_toNat (n : Nat) : (digitChar n).toNat = 48 + n % 10 := by
  have h : n % 10 < 10 := Nat.mod_lt _ (by omega)
  unfold digitChar
  interval_cases h : n % 10 <;> rfl

theorem natDecimal_foldl (n : Nat) : ∀ a : Nat,
    (natDecimal n).foldl (fun a c => 10 * a + (c.toNat - 48)) a
      = a * 10 ^ (natDecimal n).length + n := by
  induction n using Nat.strong_induction_on with
  | _ n ih =>
    intro a
    by_cases h : n < 10
    · rw [natDecimal_eq, if_pos h]
      simp [List.foldl, digitChar_toNat, Nat.mod_eq_of_lt h]
      ring
    · rw [natDecimal_eq, if_neg h]
      rw [List.foldl_append]
      rw [ih (n / 10) (Nat.div_lt_self (by omega) (by omega)) a]
      simp [List.foldl, digitChar_toNat]
      have hmod : n % 10 < 10 := Nat.mod_lt _ (by omega)
      have hdm := Nat.div_add_mod n 10
      ring_nf
      omega

theorem charsToNat_natDecimal (n : Nat) : charsToNat (natDecimal n) = n := by
  unfold charsToNat
  rw [natDecimal_foldl n 0]
  simp

theorem charsToNat_padLeft (k n : Nat) : charsToNat (padLeft k n) = n := by
  unfold charsToNat padLeft
  rw [List.foldl_append]
  have hz : ∀ m : Nat, (List.replicate m '0').foldl
      (fun a c => 10 * a + (c.toNat - 48)) 0 = 0 := by
    intro m
    induction m with
    | zero => rfl
    | succ m ihm => simp [List.replicate_succ, ihm]
  rw [hz]
  simpa using natDecimal_foldl n 0

theorem natDecimal_length_le {k n : Nat} (hk : 1 ≤ k) (h : n < 10 ^ k) :
    (natDecimal n).length ≤ k := by
  induction k generalizing n with
  | zero => omega
  | succ k ih =>
    by_cases hn : n < 10
    · rw [natDecimal_eq, if_pos hn]
      simp
    · rw [natDecimal_eq, if_neg hn]
      have hk1 : 1 ≤ k := by
        by_contra hc
        have : k = 0 := by omega
        subst this
        simp [pow_succ] at h
        omega
      have hdiv : n / 10 < 10 ^ k := by
        rw [Nat.div_lt_iff_lt_mul (by omega)]
        calc n < 10 ^ (k + 1) := h
        _ = 10 ^ k * 10 := by ring
      have := ih hk1 hdiv
      simp
      omega

theorem padLeft_length {k n : Nat} (hk : 1 ≤ k) (h : n < 10 ^ k) :
    (padLeft k n).length = k := by
  unfold padLeft
  have := natDecimal_length_le hk h
  simp
  omega

/-- Fixed-width zero-padded decimals are injective on their width range. -/
theorem padLeft_inj {k m n : Nat} (h : padLeft k m = padLeft k n) : m = n := by
  have := congrArg charsToNat h
  rwa [charsToNat_padLeft, charsToNat_padLeft] at this

/-! ## Price extraction from search-result snippets

Models the snippet scan in `HotelBookingAgent.search_hotels` and
`CarRentalAgent.search_car_rentals`:
`re.search(r"\$([0-9]+[,.]?[0-9]*)", snippet)`, with
`price_usd = f"${match.group(1)} USD"` on a match and the
`estimated_cost_usd` field defaulting to `"N/A"` otherwise. -/

/-- ASCII digit test, the `[0-9]` character class. -/
def isDigitB (c : Char) : Bool := 48 ≤ c.toNat && c.toNat ≤ 57

/-- The capture group `[0-9]+[,.]?[0-9]*` matched greedily at the start of
`l` (callers guarantee `l` starts with a digit): a digit run, optionally
one `,` or `.`, then another digit run. -/
def grabGroup (l : List Char) : List Char :=
  let d1 := l.takeWhile isDigitB
  match l.dropWhile isDigitB with
  | c :: l2 => if c = ',' || c = '.' then d1 ++ c :: l2.takeWhile isDigitB else d1
  | [] => d1

/-- Whether the list starts with an ASCII digit. -/
def headIsDigit : List Char → Bool
  | [] => false
  | d :: _ => isDigitB d

/-- Left-to-right scan for the first occurrence of the pattern
`\$([0-9]+[,.]?[0-9]*)`, returning the capture group of the first match
(the semantics of `re.search` on this pattern). -/
def findPriceMatch : List Char → Option (List Char)
  | [] => none
  | c :: rest =>
    if c = '$' && headIsDigit rest then some (grabGroup rest)
    else findPriceMatch rest

/-- The `estimated_cost_usd` field of a search result built from its
snippet: `"$<group> USD"` on a match, `"N/A"` otherwise. -/
def estimatedCost (snippet : List Char) : List Char :=
  match findPriceMatch snippet with
  | some g => "$".data ++ g ++ " USD".data
  | none => "N/A".data

/-- Reference predicate: the pattern `\$[0-9]...` matches at offset `i`
of `s` (a dollar sign immediately followed by a digit). -/
def matchAtB (s : List Char) (i : Nat) : Bool :=
  match s.drop i with
  | a :: b :: _ => a = '$' && isDigitB b
  | _ => false

/-- Reference predicate: offset `i` is the leftmost match position in `s`. -/
def isFirstMatchAt (s : List Char) (i : Nat) : Prop :=
  matchAtB s i = true ∧ ∀ j < i, matchAtB s j = false

instance (s : List Char) (i : Nat) : Decidable (isFirstMatchAt s i) := by
  unfold isFirstMatchAt
  infer_instance

/-- The capture group of a match at offset `i` (the group starts right
after the dollar sign). -/
def groupAt (s : List Char) (i : Nat) : List Char := grabGroup (s.drop (i + 1))

theorem matchAtB_cons_zero (c : Char) (rest : List Char) :
    matchAtB (c :: rest) 0 = (c = '$' && headIsDigit rest) := by
  cases rest with
  | nil => simp [matchAtB, headIsDigit]
  | cons d tl => simp [matchAtB, headIsDigit]

theorem matchAtB_cons_succ (c : Char) (rest : List Char) (i : Nat) :
    matchAtB (c :: rest) (i + 1) = matchAtB rest i := by
  simp [matchAtB]

theorem findPriceMatch_eq_none_iff (s : List Char) :
    findPriceMatch s = none ↔ ∀ i, matchAtB s i = false := by
  induction s with
  | nil =>
    simp [findPriceMatch, matchAtB]
  | cons c rest ih =>
    by_cases hc : (c = '$' && headIsDigit rest) = true
    · rw [findPriceMatch, if_pos hc]
      constructor
      · intro h; cases h
      · intro h
        have := h 0
        rw [matchAtB_cons_zero, hc] at this
        cases this
    · rw [findPriceMatch, if_neg hc]
      rw [ih]
      constructor
      · intro h i
        cases i with
        | zero => rw [matchAtB_cons_zero]; simpa using hc
        | succ j => rw [matchAtB_cons_succ]; exact h j
      · intro h j
        have := h (j + 1)
        rwa [matchAtB_cons_succ] at this

theorem findPriceMatch_eq_group (s : List Char) (i : Nat)
    (h : isFirstMatchAt s i) : findPriceMatch s = some (groupAt s i) := by
  induction s generalizing i with
  | nil =>
    exfalso
    have := h.1
    simp [matchAtB] at this
  | cons c rest ih =>
    cases i with
    | zero =>
      have h0 := h.1
      rw [matchAtB_cons_zero] at h0
      rw [findPriceMatch, if_pos h0]
      rfl
    | succ j =>
      have h0 : matchAtB (c :: rest) 0 = false := h.2 0 (Nat.succ_pos j)
      rw [matchAtB_cons_zero] at h0
      rw [findPriceMatch, if_neg (by simp [h0])]
      have hrest : isFirstMatchAt rest j := by
        refine ⟨?_, ?_⟩
        · have := h.1
          rwa [matchAtB_cons_succ] at this
        · intro j2 hj2
          have := h.2 (j2 + 1) (by omega)
          rwa [matchAtB_cons_succ] at this
      rw [ih j hrest]
      rfl

/-! ## Simulated bookings

Models `HotelBookingAgent.book_hotel` and `CarRentalAgent.book_car_rental`.
`date.today()` is passed as an explicit parameter, and Python's
process-level string hash is passed as an explicit function. -/

/-- A calendar date as produced by `date.today()`. -/
structure PyDate where
  year : Nat
  month : Nat
  day : Nat
deriving DecidableEq

/-- Format `strftime('%Y%m%d')`. -/
def fmtYmd (d : PyDate) : List Char :=
  padLeft 4 d.year ++ padLeft 2 d.month ++ padLeft 2 d.day

/-- Format `date.isoformat()`, `YYYY-MM-DD`. -/
def isoFmt (d : PyDate) : List Char :=
  padLeft 4 d.year ++ "-".data ++ padLeft 2 d.month ++ "-".data ++ padLeft 2 d.day

/-- The dict returned by `book_hotel` (before `json.dumps`). -/
structure HotelBooking where
  booking_id : List Char
  hotel_name : List Char
  check_in : List Char
  check_out : List Char
  guests : Nat
  status : List Char
  booking_date : List Char
deriving DecidableEq

/-- The dict returned by `book_car_rental` (before `json.dumps`). -/
structure CarBooking where
  booking_id : List Char
  car_name : List Char
  location : List Char
  start_date : List Char
  end_date : List Char
  driver_age : Nat
  status : List Char
  booking_date : List Char
deriving DecidableEq

/-- Models `HotelBookingAgent.book_hotel`: simulated booking, no validation. -/
def book_hotel (pyHash : List Char → Int) (hotel_name check_in check_out : List Char)
    (guests : Nat) (today : PyDate) : HotelBooking :=
  { booking_id :=
      "HB".data ++ fmtYmd today ++ padLeft 4 (pyHash hotel_name % 10000).toNat
    hotel_name := hotel_name
    check_in := check_in
    check_out := check_out
    guests := guests
    status := "confirmed".data
    booking_date := isoFmt today }

/-- Models `CarRentalAgent.book_car_rental`: simulated booking, no validation. -/
def book_car_rental (pyHash : List Char → Int) (car_name location start_date end_date : List Char)
    (driver_age : Nat) (today : PyDate) : CarBooking :=
  { booking_id :=
      "CR".data ++ fmtYmd today ++ padLeft 4 (pyHash car_name % 10000).toNat
    car_name := car_name
    location := location
    start_date := start_date
    end_date := end_date
    driver_age := driver_age
    status := "confirmed".data
    booking_date := isoFmt today }

/-! ## Envelope identifiers of the simple A2A planner

Models the id generation in `SimpleA2ATravelPlanner.send_a2a_message`:
`message_id = f"msg_{datetime.now().strftime('%Y%m%d_%H%M%S')}"` (and
likewise `task_` / `ctx_`), i.e. identifiers derived from the wall clock
truncated to whole seconds. The clock reading is an explicit parameter. -/

/-- A wall-clock reading truncated to seconds, as rendered by
`strftime('%Y%m%d_%H%M%S')`. -/
structure Timestamp where
  year : Nat
  month : Nat
  day : Nat
  hour : Nat
  minute : Nat
  second : Nat
deriving DecidableEq

/-- Field bounds guaranteed by any real clock reading (each zero-padded
field fits its fixed width). -/
def validTs (t : Timestamp) : Prop :=
  t.year < 10000 ∧ t.month < 100 ∧ t.day < 100 ∧
    t.hour < 100 ∧ t.minute < 100 ∧ t.second < 100

instance (t : Timestamp) : Decidable (validTs t) := by
  unfold validTs
  infer_instance

/-- Format `strftime('%Y%m%d_%H%M%S')`. -/
def fmtTimestamp (t : Timestamp) : List Char :=
  padLeft 4 t.year ++ padLeft 2 t.month ++ padLeft 2 t.day ++ "_".data ++
    padLeft 2 t.hour ++ padLeft 2 t.minute ++ padLeft 2 t.second

/-- The `messageId` generated for a send at clock reading `t`. -/
def messageIdAt (t : Timestamp) : List Char := "msg_".data ++ fmtTimestamp t

/-- The `taskId` generated for a send at clock reading `t`. -/
def taskIdAt (t : Timestamp) : List Char := "task_".data ++ fmtTimestamp t

/-- The `contextId` generated for a send at clock reading `t`. -/
def contextIdAt (t : Timestamp) : List Char := "ctx_".data ++ fmtTimestamp t

/-- One entry of the `parts` array of an envelope. -/
structure A2APart where
  type : List Char
  text : List Char
deriving DecidableEq

/-- The envelope built by `send_a2a_message` just before the POST. -/
structure A2AEnvelope where
  role : List Char
  messageId : List Char
  taskId : List Char
  contextId : List Char
  parts : List A2APart
deriving DecidableEq

/-- The payload construction in `SimpleA2ATravelPlanner.send_a2a_message`
for message text `message` at clock reading `now`. -/
def a2aEnvelope (message : List Char) (now : Timestamp) : A2AEnvelope :=
  { role := "user".data
    messageId := messageIdAt now
    taskId := taskIdAt now
    contextId := contextIdAt now
    parts := [{ type := "text".data, text := message }] }

theorem fmtTimestamp_inj {t1 t2 : Timestamp} (h1 : validTs t1) (h2 : validTs t2)
    (h : fmtTimestamp t1 = fmtTimestamp t2) : t1 = t2 := by
  obtain ⟨hy1, hmo1, hd1, hh1, hmi1, hs1⟩ := h1
  obtain ⟨hy2, hmo2, hd2, hh2, hmi2, hs2⟩ := h2
  unfold fmtTimestamp at h
  have l4 : ∀ n : Nat, n < 10000 → (padLeft 4 n).length = 4 := by
    intro n hn
    refine padLeft_length (by omega) ?_
    have h10 : (10 : Nat) ^ 4 = 10000 := by norm_num
    omega
  have l2 : ∀ n : Nat, n < 100 → (padLeft 2 n).length = 2 := by
    intro n hn
    refine padLeft_length (by omega) ?_
    have h10 : (10 : Nat) ^ 2 = 100 := by norm_num
    omega
  obtain ⟨h, hs⟩ := List.append_inj' h (by rw [l2 _ hs1, l2 _ hs2])
  obtain ⟨h, hmi⟩ := List.append_inj' h (by rw [l2 _ hmi1, l2 _ hmi2])
  obtain ⟨h, hh⟩ := List.append_inj' h (by rw [l2 _ hh1, l2 _ hh2])
  obtain ⟨h, -⟩ := List.append_inj' h rfl
  obtain ⟨h, hd⟩ := List.append_inj' h (by rw [l2 _ hd1, l2 _ hd2])
  obtain ⟨hy, hmo⟩ := List.append_inj' h (by rw [l2 _ hmo1, l2 _ hmo2])
  cases t1
  cases t2
  simp only [Timestamp.mk.injEq]
  exact ⟨padLeft_inj hy, padLeft_inj hmo, padLeft_inj hd,
    padLeft_inj hh, padLeft_inj hmi, padLeft_inj hs⟩

/-! ## Simple A2A planner: transport, fan-out and aggregation

Models `SimpleA2ATravelPlanner` (`simple_a2a_agent.py`): the
`send_a2a_message` wrapper that converts every transport failure into an
`{"error": ...}` dict, the sequential hotel-then-car fan-out of `stream`,
and the final plan compilation. Network outcomes are explicit parameters. -/

/-- The JSON body of a peer's HTTP 200 reply. A conforming executor sends
`{id, result: {type, content, metadata}, status}`; `resultContent = none`
models a 200 body without a `result`/`content` entry. -/
structure PeerBody where
  resultContent : Option (List Char)
deriving DecidableEq

/-- Outcome of one `client.post(f"\x7bagent_url\x7d/a2a/message", ...)` call:
200 reply, non-200 status, or a raised exception (connection refused,
timeout, ...). -/
inductive TransportOutcome where
  | ok (body : PeerBody)
  | httpError (code : Nat) (text : List Char)
  | raised (msg : List Char)
deriving DecidableEq

/-- Whether the peer call failed (anything but an HTTP 200 reply). -/
def TransportOutcome.isFailure : TransportOutcome → Bool
  | .ok _ => false
  | .httpError _ _ => true
  | .raised _ => true

/-- The dict `send_a2a_message` returns: the peer's parsed JSON on a 200
reply, or an `{"error": ...}` record otherwise. -/
inductive A2AReply where
  | fromPeer (body : PeerBody)
  | errorDict (msg : List Char)
deriving DecidableEq

/-- Models `SimpleA2ATravelPlanner.send_a2a_message`, given the transport outcome
of its POST. Total: the `try`/`except` and the status check map every
failure to an `{"error": ...}` dict instead of letting it escape. -/
def send_a2a_message : TransportOutcome → A2AReply
  | .ok body => .fromPeer body
  | .httpError code text =>
      .errorDict ("HTTP (".data ++ natDecimal code ++ "): ".data ++ text)
  | .raised msg => .errorDict ("A2A communication failed: ".data ++ msg)

/-- Content extraction in `stream` (lines 200-210): starts from `""` and
assigns only when the reply has no `"error"` key and carries
`result.content`. -/
def extractContent : A2AReply → List Char
  | .fromPeer body => body.resultContent.getD []
  | .errorDict _ => []

/-- The `status` recorded by `log_agent_communication` for a reply:
`"success" if "error" not in response else "error"`. -/
def logStatus : A2AReply → List Char
  | .fromPeer _ => "success".data
  | .errorDict _ => "error".data

/-- The destination table of `SimpleA2ATravelPlanner.extract_destination`. -/
def destinationsA2A : List (List Char × List Char) :=
  [("new york".data, "New York".data),
   ("paris".data, "Paris".data),
   ("london".data, "London".data),
   ("tokyo".data, "Tokyo".data),
   ("bhubaneswar".data, "Bhubaneswar".data),
   ("delhi".data, "New Delhi".data),
   ("mumbai".data, "Mumbai".data),
   ("bangalore".data, "Bangalore".data)]

/-- Models `SimpleA2ATravelPlanner.extract_destination`: first table key found as
a substring of the lowercased query, else the fallback. -/
def extract_destination (query : List Char) : List Char :=
  let ql := query.map Char.toLower
  match destinationsA2A.find? (fun p => decide (p.1 <:+: ql)) with
  | some p => p.2
  | none => "Unknown Destination".data

/-- The planner's hotel-peer and car-peer endpoints. -/
def hotelAgentUrl : List Char := "http://localhost:10002".data

/-- The car peer's endpoint. -/
def carAgentUrl : List Char := "http://localhost:10003".data

/-- The task text sent to the hotel peer for a destination. -/
def hotelTaskText (dest : List Char) : List Char :=
  "Find budget-friendly hotels in (".data ++ dest ++ ") for the requested dates".data

/-- The task text sent to the car peer for a destination. -/
def carTaskText (dest : List Char) : List Char :=
  "Find car rental options in (".data ++ dest ++ ") for the requested dates".data

/-- Fallback line of the hotel section when no hotel content is available. -/
def hotelFallback : List Char :=
  "*Hotel agent communication failed or no content available*".data

/-- Fallback line of the car section when no car content is available. -/
def carFallback : List Char :=
  "*Car rental agent communication failed or no content available*".data

/-- The final markdown plan compiled by `stream` (lines 213-235). -/
def compileA2APlan (query dateStr : List Char) (hotelActive carActive : Bool)
    (hotelReply carReply : A2AReply) : List Char :=
  let dest := extract_destination query
  let hotel_content := extractContent hotelReply
  let car_content := extractContent carReply
  "# A2A Travel Plan for ".data ++ dest ++
    "\n\n## 🎯 Destination: ".data ++ dest ++
    "\n**Query:** ".data ++ query ++
    "\n**Date:** ".data ++ dateStr ++
    "\n\n## 📋 Travel Recommendations\n\n### 🏨 Hotel Recommendations\n".data ++
    (if hotel_content ≠ [] then hotel_content else hotelFallback) ++
    "\n\n### 🚗 Car Rental Options\n".data ++
    (if car_content ≠ [] then car_content else carFallback) ++
    "\n\n## 🔗 A2A Protocol Status\n- ✅ Travel Planner Agent: Active\n- ".data ++
    (if hotelActive then ("✅".data) else ("❌".data)) ++
    " Hotel Agent: ".data ++
    (if hotelActive then ("active".data) else ("unknown".data)) ++
    "\n- ".data ++
    (if carActive then ("✅".data) else ("❌".data)) ++
    " Car Agent: ".data ++
    (if carActive then ("active".data) else ("unknown".data)) ++
    "\n\n---\n*This response was generated using A2A (Agent-to-Agent) protocol for multi-agent coordination.*\n*Agent communication details have been logged to agent_communication_log.json*\n".data

/-- One yield of the `stream` async generator. -/
inductive StreamYield where
  | progress (updates : List Char)
  | final (content : List Char)
deriving DecidableEq

/-- The full yield sequence of `SimpleA2ATravelPlanner.stream` for a query,
given the clock date string, the two discovery-probe results and the two
capability-call outcomes. -/
def streamYields (query dateStr : List Char) (hotelActive carActive : Bool)
    (oh oc : TransportOutcome) : List StreamYield :=
  let dest := extract_destination query
  [.progress ("🤖 A2A Travel Planner: Processing request for (".data ++ dest ++ ")...".data),
   .progress ("🔍 Checking A2A agent status...".data),
   .progress ("🏨 Contacting Hotel Agent via A2A for (".data ++ dest ++ ")...".data),
   .progress ("🚗 Contacting Car Rental Agent via A2A for (".data ++ dest ++ ")...".data),
   .progress ("📋 Compiling A2A travel plan...".data),
   .final (compileA2APlan query dateStr hotelActive carActive
      (send_a2a_message oh) (send_a2a_message oc))]

/-- The two `log_agent_communication` entries written by one `stream` run:
agent name paired with the logged status. -/
def streamLogEntries (oh oc : TransportOutcome) : List (List Char × List Char) :=
  [("Hotel_Booking_Agent".data, logStatus (send_a2a_message oh)),
   ("Car_Rental_Agent".data, logStatus (send_a2a_message oc))]

/-! ### Communication traces of the fan-out

The order in which capability calls are issued and their results awaited,
read off the `await` structure of `stream` (`hotel_response = await
send_a2a_message(...)` completes before the car call is made) and of
`plan_trip` in `simple_travel_planner.py` (blocking `requests.post` to the
hotel peer returns before the car peer is called). -/

/-- A transport-level event of one planning operation. -/
inductive FanEvent where
  | sendTo (url text : List Char)
  | recvFrom (url : List Char)
deriving DecidableEq

/-- The capability-call trace of `SimpleA2ATravelPlanner.stream`: the hotel
call is sent and its result received before the car call is sent. -/
def streamCommTrace (query : List Char) : List FanEvent :=
  let dest := extract_destination query
  [.sendTo hotelAgentUrl (hotelTaskText dest),
   .recvFrom hotelAgentUrl,
   .sendTo carAgentUrl (carTaskText dest),
   .recvFrom carAgentUrl]

/-- The capability-call trace of `SimpleTravelPlanner.plan_trip`
(`simple_travel_planner.py` lines 145-153), likewise sequential. -/
def planTripCommTrace (dest : List Char) : List FanEvent :=
  [.sendTo hotelAgentUrl ("Find top 10 budget-friendly hotels in ".data ++ dest),
   .recvFrom hotelAgentUrl,
   .sendTo carAgentUrl ("Find car rental options in ".data ++ dest),
   .recvFrom carAgentUrl]

/-- Whether an event is a capability-call send. -/
def FanEvent.isSend : FanEvent → Bool
  | .sendTo _ _ => true
  | .recvFrom _ => false

/-- Whether an event is the await/receipt of a capability-call result. -/
def FanEvent.isRecv : FanEvent → Bool
  | .sendTo _ _ => false
  | .recvFrom _ => true

/-- Positions of the send events in a trace. -/
def sendIndices (tr : List FanEvent) : List Nat :=
  (tr.enum.filter (fun p => p.2.isSend)).map Prod.fst

/-- Positions of the receive events in a trace. -/
def recvIndices (tr : List FanEvent) : List Nat :=
  (tr.enum.filter (fun p => p.2.isRecv)).map Prod.fst

/-- "All N calls are in flight before any result is awaited": every send
event precedes every receive event. -/
def allInFlightBeforeAwait (tr : List FanEvent) : Prop :=
  ∀ i ∈ sendIndices tr, ∀ j ∈ recvIndices tr, i < j

instance (tr : List FanEvent) : Decidable (allInFlightBeforeAwait tr) := by
  unfold allInFlightBeforeAwait
  infer_instance

/-- Pending sends with their send times, plus the current clock. -/
structure NetState where
  clock : Nat
  sentAt : List (List Char × Nat)

/-- Look up the send time of a pending call. -/
def findSent : List (List Char × Nat) → List Char → Option Nat
  | [], _ => none
  | (u, t) :: rest, url => if u = url then some t else findSent rest url

/-- Timing semantics of a trace event: a send is instantaneous and stamps
the call with the current clock; awaiting a result advances the clock to
the call's completion time (send time plus the peer's latency). -/
def stepEvent (dur : List Char → Nat) (st : NetState) : FanEvent → NetState
  | .sendTo url _ => { st with sentAt := (url, st.clock) :: st.sentAt }
  | .recvFrom url =>
    match findSent st.sentAt url with
    | some t0 => { st with clock := max st.clock (t0 + dur url) }
    | none => st

/-- Total elapsed time of a trace under per-peer latencies `dur`. -/
def elapsedTime (dur : List Char → Nat) (tr : List FanEvent) : Nat :=
  (tr.foldl (stepEvent dur) { clock := 0, sentAt := [] }).clock

/-! ## Capability agents: search and request processing

Models `HotelBookingAgent.search_hotels` / `process_request`
(`simple_hotel_agent.py`) and `CarRentalAgent.search_car_rentals` /
`process_request` (`simple_car_agent.py`). The Serper HTTP call and the
LLM call are collaborators, so their outcomes are explicit parameters.
JSON pretty-printing whitespace (`indent=2`) is not reproduced; the
serialized text is modelled by `renderHotelReply` / `renderCarReply`. -/

/-- One entry of the `organic` array of a Serper reply. -/
structure SerperResult where
  title : List Char
  snippet : List Char
  link : List Char
deriving DecidableEq

/-- Outcome of the Serper POST, `raise_for_status` and `response.json()`:
a parsed body (with or without an `organic` key), or a raised exception
(connection error or non-2xx status). -/
inductive SerperOutcome where
  | ok (organic : Option (List SerperResult))
  | fail (msg : List Char)
deriving DecidableEq

/-- One normalized hotel result dict built by `search_hotels`. -/
structure HotelItem where
  name : List Char
  description : List Char
  link : List Char
  location : List Char
  check_in : List Char
  check_out : List Char
  budget : List Char
  estimated_cost_usd : List Char
deriving DecidableEq

/-- One normalized car-rental result dict built by `search_car_rentals`. -/
structure CarItem where
  name : List Char
  description : List Char
  link : List Char
  location : List Char
  start_date : List Char
  end_date : List Char
  budget : List Char
  estimated_cost_usd : List Char
deriving DecidableEq

/-- The value `search_hotels` serializes and returns: an `{"error": ...}`
dict or the list of normalized results. -/
inductive HotelSearchReply where
  | errorReply (msg : List Char)
  | resultsReply (items : List HotelItem)
deriving DecidableEq

/-- The value `search_car_rentals` serializes and returns. -/
inductive CarSearchReply where
  | errorReply (msg : List Char)
  | resultsReply (items : List CarItem)
deriving DecidableEq

/-- Normalization of one organic result in `search_hotels`, including the
best-effort price scan of the snippet. -/
def mkHotelItem (location check_in check_out budget : List Char)
    (r : SerperResult) : HotelItem :=
  { name := r.title
    description := r.snippet
    link := r.link
    location := location
    check_in := check_in
    check_out := check_out
    budget := budget
    estimated_cost_usd := estimatedCost r.snippet }

/-- Normalization of one organic result in `search_car_rentals`. -/
def mkCarItem (location start_date end_date budget : List Char)
    (r : SerperResult) : CarItem :=
  { name := r.title
    description := r.snippet
    link := r.link
    location := location
    start_date := start_date
    end_date := end_date
    budget := budget
    estimated_cost_usd := estimatedCost r.snippet }

/-- Models `HotelBookingAgent.search_hotels`: missing key and raised transport
errors become `{"error": ...}` replies; a 2xx body yields up to five
normalized results (an absent `organic` key yields the empty list). -/
def search_hotels (serperKey : Option (List Char))
    (location check_in check_out budget : List Char)
    (outcome : SerperOutcome) : HotelSearchReply :=
  match serperKey with
  | none => .errorReply ("SERPER_API_KEY not found".data)
  | some _ =>
    match outcome with
    | .fail msg => .errorReply ("Search failed: ".data ++ msg)
    | .ok none => .resultsReply []
    | .ok (some rs) =>
        .resultsReply ((rs.take 5).map (mkHotelItem location check_in check_out budget))

/-- Models `CarRentalAgent.search_car_rentals`. -/
def search_car_rentals (serperKey : Option (List Char))
    (location start_date end_date budget : List Char)
    (outcome : SerperOutcome) : CarSearchReply :=
  match serperKey with
  | none => .errorReply ("SERPER_API_KEY not found".data)
  | some _ =>
    match outcome with
    | .fail msg => .errorReply ("Search failed: ".data ++ msg)
    | .ok none => .resultsReply []
    | .ok (some rs) =>
        .resultsReply ((rs.take 5).map (mkCarItem location start_date end_date budget))

/-- Compact JSON rendering of one hotel item (pretty-print whitespace
abstracted). -/
def renderHotelItem (it : HotelItem) : List Char :=
  "\x7b\"name\": \"".data ++ it.name ++
    "\", \"description\": \"".data ++ it.description ++
    "\", \"link\": \"".data ++ it.link ++
    "\", \"location\": \"".data ++ it.location ++
    "\", \"check_in\": \"".data ++ it.check_in ++
    "\", \"check_out\": \"".data ++ it.check_out ++
    "\", \"budget\": \"".data ++ it.budget ++
    "\", \"estimated_cost_usd\": \"".data ++ it.estimated_cost_usd ++ "\"\x7d".data

/-- Compact JSON rendering of one car item. -/
def renderCarItem (it : CarItem) : List Char :=
  "\x7b\"name\": \"".data ++ it.name ++
    "\", \"description\": \"".data ++ it.description ++
    "\", \"link\": \"".data ++ it.link ++
    "\", \"location\": \"".data ++ it.location ++
    "\", \"start_date\": \"".data ++ it.start_date ++
    "\", \"end_date\": \"".data ++ it.end_date ++
    "\", \"budget\": \"".data ++ it.budget ++
    "\", \"estimated_cost_usd\": \"".data ++ it.estimated_cost_usd ++ "\"\x7d".data

/-- JSON array rendering, comma-separated. -/
def renderArray (rendered : List (List Char)) : List Char :=
  "[".data ++ List.intercalate (", ".data) rendered ++ "]".data

/-- The string `search_hotels` returns (`json.dumps` of its value). -/
def renderHotelReply : HotelSearchReply → List Char
  | .errorReply msg => "\x7b\"error\": \"".data ++ msg ++ "\"\x7d".data
  | .resultsReply items => renderArray (items.map renderHotelItem)

/-- The string `search_car_rentals` returns. -/
def renderCarReply : CarSearchReply → List Char
  | .errorReply msg => "\x7b\"error\": \"".data ++ msg ++ "\"\x7d".data
  | .resultsReply items => renderArray (items.map renderCarItem)

/-- The dict parsed out of the hotel LLM extraction reply; each key may be
absent (`extracted_info.get(key, default)` supplies per-key defaults). -/
structure HotelInfoDict where
  location : Option (List Char)
  check_in : Option (List Char)
  check_out : Option (List Char)
  guests : Option Nat
  budget : Option (List Char)
deriving DecidableEq

/-- The fixed fallback dict of `HotelBookingAgent.process_request` used
when the LLM reply is not parseable JSON (lines 120-126). -/
def defaultHotelInfo : HotelInfoDict :=
  { location := some ("Paris".data)
    check_in := some ("2025-10-06".data)
    check_out := some ("2025-10-07".data)
    guests := some 2
    budget := some ("any".data) }

/-- The dict parsed out of the car LLM extraction reply. -/
structure CarInfoDict where
  location : Option (List Char)
  start_date : Option (List Char)
  end_date : Option (List Char)
  budget : Option (List Char)
  driver_age : Option Nat
deriving DecidableEq

/-- The fixed fallback dict of `CarRentalAgent.process_request`
(lines 121-127). -/
def defaultCarInfo : CarInfoDict :=
  { location := some ("Paris".data)
    start_date := some ("2025-10-06".data)
    end_date := some ("2025-10-07".data)
    budget := some ("any".data)
    driver_age := some 25 }

/-- Outcome of the `llm.invoke` extraction call plus the `json.loads`
attempt on its content: a raised LLM exception, or returned content whose
JSON parse either failed (`none`) or produced a dict. -/
inductive HotelLLMExtraction where
  | failure (msg : List Char)
  | content (parsed : Option HotelInfoDict)
deriving DecidableEq

/-- Same for the car agent. -/
inductive CarLLMExtraction where
  | failure (msg : List Char)
  | content (parsed : Option CarInfoDict)
deriving DecidableEq

/-- The `final_response` template of `HotelBookingAgent.process_request`
(lines 137-155). -/
def hotelResponseTemplate (loc ci co : List Char) (guests : Nat)
    (bud searchResults : List Char) : List Char :=
  "\n**Hotel Recommendations for (".data ++ loc ++ ")**\n\n".data ++
    searchResults ++
    "\n\n**Booking Information:**\n- Check-in: ".data ++ ci ++
    "\n- Check-out: ".data ++ co ++
    "\n- Guests: ".data ++ natDecimal guests ++
    "\n- Budget: ".data ++ bud ++
    "\n\n**Next Steps:**\nTo book a hotel, please specify:\n1. The hotel you prefer\n2. Your contact information\n3. Any special requirements\n\nThis response was generated using the Simplified Hotel Booking Agent with Groq LLM.\n            ".data

/-- The `final_response` template of `CarRentalAgent.process_request`
(lines 138-156). -/
def carResponseTemplate (loc sd ed : List Char) (age : Nat)
    (bud searchResults : List Char) : List Char :=
  "\n**Car Rental Options for (".data ++ loc ++ ")**\n\n".data ++
    searchResults ++
    "\n\n**Booking Information:**\n- Start Date: ".data ++ sd ++
    "\n- End Date: ".data ++ ed ++
    "\n- Driver Age: ".data ++ natDecimal age ++
    "\n- Budget: ".data ++ bud ++
    "\n\n**Next Steps:**\nTo book a car rental, please specify:\n1. The car rental company you prefer\n2. Your contact information\n3. Any special requirements\n\nThis response was generated using the Simplified Car Rental Agent with Groq LLM.\n            ".data

/-- Models `HotelBookingAgent.process_request`: LLM extraction with fixed-default
fallback, search, and the normal response template; only a raised LLM call
reaches the outer error branch. -/
def hotel_process_request (llm : HotelLLMExtraction)
    (serperKey : Option (List Char)) (outcome : SerperOutcome) : List Char :=
  match llm with
  | .failure msg => "Error processing hotel booking request: ".data ++ msg
  | .content parsed =>
    let info := parsed.getD defaultHotelInfo
    let loc := info.location.getD ("Paris".data)
    let ci := info.check_in.getD ("2025-10-06".data)
    let co := info.check_out.getD ("2025-10-07".data)
    let bud := info.budget.getD ("any".data)
    let guests := info.guests.getD 2
    let sr := search_hotels serperKey loc ci co bud outcome
    hotelResponseTemplate loc ci co guests bud (renderHotelReply sr)

/-- Models `CarRentalAgent.process_request`. -/
def car_process_request (llm : CarLLMExtraction)
    (serperKey : Option (List Char)) (outcome : SerperOutcome) : List Char :=
  match llm with
  | .failure msg => "Error processing car rental request: ".data ++ msg
  | .content parsed =>
    let info := parsed.getD defaultCarInfo
    let loc := info.location.getD ("Paris".data)
    let sd := info.start_date.getD ("2025-10-06".data)
    let ed := info.end_date.getD ("2025-10-07".data)
    let bud := info.budget.getD ("any".data)
    let age := info.driver_age.getD 25
    let sr := search_car_rentals serperKey loc sd ed bud outcome
    carResponseTemplate loc sd ed age bud (renderCarReply sr)

/-- The A2A result wrapper built by the `/a2a/message` endpoint
(`a2a_hotel_executor.py` / `a2a_car_executor.py` lines 92-105):
`A2AMessageResponse(id=..., result={content: ...})` with the `status`
field left at its default `"success"`. -/
structure A2AExecResult where
  id : List Char
  content : List Char
  status : List Char
deriving DecidableEq

/-- Wrap an agent reply as the executor's A2A response. -/
def a2aMessageResponse (messageId agentReply : List Char) : A2AExecResult :=
  { id := messageId, content := agentReply, status := "success".data }

/-! ## Envelope text extraction at the receivers

Models the part-concatenation loop of the `/a2a/message` endpoints
(`a2a_hotel_executor.py` and `a2a_car_executor.py`, lines 80-86):
`message_text += part.text + " "` for parts with `type == "text"`,
then `message_text.strip()`. -/

/-- Python `str.strip()` whitespace (ASCII subset). -/
def pyIsSpace (c : Char) : Bool :=
  c = ' ' || c = '\t' || c = '\n' || c = '\r' || c = '\x0b' || c = '\x0c'

/-- Python `str.strip()`: drop whitespace from both ends. -/
def pyStrip (l : List Char) : List Char :=
  ((l.dropWhile pyIsSpace).reverse.dropWhile pyIsSpace).reverse

/-- The receivers' task-text extraction from the envelope parts. -/
def a2a_extract_text (parts : List A2APart) : List Char :=
  pyStrip (parts.foldl
    (fun acc p => if p.type = "text".data then acc ++ p.text ++ " ".data else acc) [])

/-- The text parts of an envelope, in order (reference definition). -/
def textParts (parts : List A2APart) : List (List Char) :=
  (parts.filter (fun p => decide (p.type = "text".data))).map A2APart.text

/-- Join strings with a single space separator. -/
def joinWithSpace : List (List Char) → List Char
  | [] => []
  | [t] => t
  | t :: ts => t ++ " ".data ++ joinWithSpace ts

/-- Spec-side reading of the extraction rule: the text parts joined with a
single space separator. -/
def joinTextParts (parts : List A2APart) : List Char :=
  joinWithSpace (textParts parts)

/-! ## Simple chat fallback endpoints

Models the `/chat` handlers. `simple_executor.py` (hotel) and
`app/simple_executor.py` (car) wrap the agent reply as
`{"response": ...}`; `simple_hotel_executor.py`, `simple_car_executor.py`
and the `/chat` routes of the a2a executors return the agent reply
directly, so the response body is a bare JSON string. -/

/-- A JSON value (the shapes these endpoints produce). -/
inductive Json where
  | jstr (s : List Char)
  | jobj (fields : List (List Char × Json))

/-- Field lookup on a JSON value; `none` on non-objects. -/
def Json.getField (key : List Char) : Json → Option Json
  | .jstr _ => none
  | .jobj fields =>
    match fields.find? (fun p => decide (p.1 = key)) with
    | some p => some p.2
    | none => none

/-- The `/chat` handler of `simple_hotel_executor.py` (also
`simple_car_executor.py` and the a2a executors' `/chat`): returns the
agent reply itself, serialized as a bare JSON string. -/
def chat_simple_hotel_executor (agentReply : List Char) : Json :=
  .jstr agentReply

/-- The `/chat` handler of `simple_executor.py` (hotel) and
`app/simple_executor.py` (car): returns `{"response": <reply>}`. -/
def chat_simple_executor (agentReply : Json) : Json :=
  .jobj [("response".data, agentReply)]

/-! ## Coordinator discovery and connection set

Models `TravelPlannerAgent._async_init_components`
(`travel_planner/agent.py` lines 63-84): per-address card discovery with
all exceptions caught and the peer skipped, and `send_message`
(lines 191-236): lookup by agent name, raising before any network send
when the agent is unknown. -/

/-- An agent card as resolved by discovery. -/
structure DiscoveredCard where
  name : List Char
  description : List Char
deriving DecidableEq

/-- The coordinator's connection state: `card.name ↦ agent_url` plus the
card registry. -/
structure ConnState where
  connections : List (List Char × List Char)
  cards : List (List Char × DiscoveredCard)
deriving DecidableEq

/-- Key lookup in a name-keyed association list (first match wins; entries
are prepended, so a later discovery of the same name shadows an earlier
one, like a Python dict assignment). -/
def lookupByKey {α : Type} : List (List Char × α) → List Char → Option α
  | [], _ => none
  | (k, v) :: rest, key => if k = key then some v else lookupByKey rest key

/-- One iteration of the discovery loop: a successful discovery registers
the connection under the card's name; any discovery failure is caught
(logged) and the peer skipped. -/
def initStep (disc : List Char → Except (List Char) DiscoveredCard)
    (st : ConnState) (address : List Char) : ConnState :=
  match disc address with
  | .ok card =>
      { connections := (card.name, address) :: st.connections
        cards := (card.name, card) :: st.cards }
  | .error _ => st

/-- Models `_async_init_components`: fold the discovery loop over the configured
addresses, starting from empty registries. -/
def init_components (addresses : List (List Char))
    (disc : List Char → Except (List Char) DiscoveredCard) : ConnState :=
  addresses.foldl (initStep disc) { connections := [], cards := [] }

/-- Models `send_message`: an unknown agent name raises `ValueError` before any
network activity; a known name produces exactly one POST to the stored
connection's address. Returns the call result together with the list of
network sends performed. -/
def send_message_sends (st : ConnState) (agentName : List Char) :
    Except (List Char) Unit × List (List Char) :=
  match lookupByKey st.connections agentName with
  | none => (.error ("Agent (".data ++ agentName ++ ") not found".data), [])
  | some url => (.ok (), [url])

/-- The network sends of a whole fan-out (any sequence of `send_message`
calls by agent name). -/
def fanOutSends (st : ConnState) (names : List (List Char)) : List (List Char) :=
  names.foldr (fun n acc => (send_message_sends st n).2 ++ acc) []

/-- Number of network sends targeting a given address. -/
def countSendsTo (address : List Char) (sends : List (List Char)) : Nat :=
  sends.countP (fun u => decide (u = address))

/-- Discovery success test. -/
def discOk (disc : List Char → Except (List Char) DiscoveredCard)
    (address : List Char) : Bool :=
  match disc address with
  | .ok _ => true
  | .error _ => false

/-! ## Shared helper lemmas -/

theorem infix_append_of_infix (x : List Char) {m l : List Char}
    (h : m <:+: l) : m <:+: x ++ l := by
  obtain ⟨s, t, rfl⟩ := h
  exact ⟨x ++ s, t, by simp [List.append_assoc]⟩

theorem infix_self_append (m t : List Char) : m <:+: m ++ t :=
  ⟨[], t, rfl⟩

/-! ## Claim theorems -/

/-- Claim C4: for every search-result snippet, the price extraction
returns `"$<group> USD"` built from the first match of the
`\$([0-9]+[,.]?[0-9]*)` pattern, and returns `"N/A"` rather than failing
when the snippet contains no such pattern. -/
theorem estimated_cost_first_match_or_na (s : List Char) :
    (∀ i, isFirstMatchAt s i →
      estimatedCost s = "$".data ++ groupAt s i ++ " USD".data) ∧
    ((∀ i, matchAtB s i = false) → estimatedCost s = "N/A".data) := by
  constructor
  · intro i hi
    unfold estimatedCost
    rw [findPriceMatch_eq_group s i hi]
  · intro h
    unfold estimatedCost
    rw [(findPriceMatch_eq_none_iff s).mpr h]

/-- Witness for C4: the spec's own example snippet
`"Rooms from $129 per night"` has its first match at offset 11 and
yields estimated cost `"$129 USD"`. -/
theorem estimated_cost_first_match_or_na_witness :
    isFirstMatchAt ("Rooms from $129 per night".data) 11 ∧
      estimatedCost ("Rooms from $129 per night".data) =
        "$".data ++ groupAt ("Rooms from $129 per night".data) 11 ++ " USD".data ∧
      estimatedCost ("Rooms from $129 per night".data) = "$129 USD".data :=
  ⟨by decide,
   (estimated_cost_first_match_or_na ("Rooms from $129 per night".data)).1 11 (by decide),
   by decide⟩

/-- Claim C10: the simulated bookings `book_hotel` and `book_car_rental`
succeed on every input: the returned record's status is `"confirmed"` and
its booking id is the `HB`/`CR` prefix, today's date, and a four-digit
hash suffix; no input is rejected. -/
theorem simulated_bookings_always_confirmed (pyHash : List Char → Int)
    (hotel_name check_in check_out car_name location start_date end_date : List Char)
    (guests driver_age : Nat) (today : PyDate) :
    (book_hotel pyHash hotel_name check_in check_out guests today).status
        = "confirmed".data ∧
    (book_hotel pyHash hotel_name check_in check_out guests today).booking_id
        = "HB".data ++ fmtYmd today ++ padLeft 4 (pyHash hotel_name % 10000).toNat ∧
    (padLeft 4 (pyHash hotel_name % 10000).toNat).length = 4 ∧
    (book_car_rental pyHash car_name location start_date end_date driver_age today).status
        = "confirmed".data ∧
    (book_car_rental pyHash car_name location start_date end_date driver_age today).booking_id
        = "CR".data ++ fmtYmd today ++ padLeft 4 (pyHash car_name % 10000).toNat ∧
    (padLeft 4 (pyHash car_name % 10000).toNat).length = 4 := by
  have hb : ∀ z : Int, (z % 10000).toNat < 10 ^ 4 := by
    intro z
    have h1 : 0 ≤ z % 10000 := Int.emod_nonneg z (by omega)
    have h2 : z % 10000 < 10000 := Int.emod_lt_of_pos z (by omega)
    have h10 : (10 : Nat) ^ 4 = 10000 := by norm_num
    omega
  refine ⟨rfl, rfl, padLeft_length (by omega) (hb _), rfl, rfl,
    padLeft_length (by omega) (hb _)⟩

/-- Counterexample for C9: two distinct send operations performed in the
same wall-clock second (as the hotel call and car call of one `stream` run
typically are) produce envelopes with the same `message_id`, refuting
per-send uniqueness. -/
theorem message_id_collision_counterexample :
    (a2aEnvelope (hotelTaskText ("Paris".data)) ⟨2025, 10, 6, 12, 30, 45⟩).messageId
        = (a2aEnvelope (carTaskText ("Paris".data)) ⟨2025, 10, 6, 12, 30, 45⟩).messageId ∧
    a2aEnvelope (hotelTaskText ("Paris".data)) ⟨2025, 10, 6, 12, 30, 45⟩
        ≠ a2aEnvelope (carTaskText ("Paris".data)) ⟨2025, 10, 6, 12, 30, 45⟩ := by
  constructor
  · rfl
  · decide

/-- Claim C9 (amended): the simple A2A planner's `message_id` is `"msg_"`
plus the wall clock formatted to whole seconds, so the message ids of two
send operations are distinct exactly when their clock seconds differ;
sends within one second share an id. -/
theorem message_id_unique_iff_distinct_seconds (t1 t2 : Timestamp)
    (h1 : validTs t1) (h2 : validTs t2) :
    messageIdAt t1 = messageIdAt t2 ↔ t1 = t2 := by
  constructor
  · intro h
    unfold messageIdAt at h
    exact fmtTimestamp_inj h1 h2 (List.append_inj h rfl).2
  · intro h
    rw [h]

/-- Witness for the amended C9: two clock readings one second apart are
valid and have distinct message ids; equal readings share one. -/
theorem message_id_unique_iff_distinct_seconds_witness :
    validTs ⟨2025, 10, 6, 12, 30, 45⟩ ∧ validTs ⟨2025, 10, 6, 12, 30, 46⟩ ∧
      (messageIdAt ⟨2025, 10, 6, 12, 30, 45⟩ = messageIdAt ⟨2025, 10, 6, 12, 30, 46⟩
        ↔ (⟨2025, 10, 6, 12, 30, 45⟩ : Timestamp) = ⟨2025, 10, 6, 12, 30, 46⟩) :=
  ⟨by decide, by decide,
   message_id_unique_iff_distinct_seconds _ _ (by decide) (by decide)⟩

/-- Counterexample for C8: on an envelope whose single text part is
`" hello"`, the receiver extracts `"hello"`, not the plain space-joined
concatenation `" hello"`: the loop's result is additionally stripped. -/
theorem extract_text_counterexample :
    a2a_extract_text [⟨"text".data, " hello".data⟩] = "hello".data ∧
    joinTextParts [⟨"text".data, " hello".data⟩] = " hello".data ∧
    a2a_extract_text [⟨"text".data, " hello".data⟩]
      ≠ joinTextParts [⟨"text".data, " hello".data⟩] := by
  refine ⟨by decide, ?_, ?_⟩
  · decide
  · decide

theorem dropWhile_append_char (f : Char → Bool) (l t : List Char) :
    List.dropWhile f (l ++ t) =
      if List.dropWhile f l = [] then List.dropWhile f t
      else List.dropWhile f l ++ t := by
  induction l with
  | nil => simp
  | cons c l ih =>
    by_cases hc : f c = true
    · simp only [List.cons_append, List.dropWhile_cons, hc, if_true]
      exact ih
    · simp only [List.cons_append, List.dropWhile_cons, hc]
      simp

theorem pyStrip_append_space (l : List Char) :
    pyStrip (l ++ " ".data) = pyStrip l := by
  unfold pyStrip
  rw [dropWhile_append_char]
  by_cases h : List.dropWhile pyIsSpace l = []
  · rw [if_pos h, h]
    decide
  · rw [if_neg h]
    have : (" ".data : List Char) = [' '] := rfl
    rw [this, List.reverse_append]
    simp [List.dropWhile_cons, pyIsSpace]

/-- The loop body's cumulative effect: each text part followed by one
space. -/
def spaceTrail (texts : List (List Char)) : List Char :=
  texts.foldr (fun t acc => t ++ " ".data ++ acc) []

theorem extract_fold (parts : List A2APart) : ∀ acc : List Char,
    parts.foldl
        (fun acc p => if p.type = "text".data then acc ++ p.text ++ " ".data else acc)
        acc
      = acc ++ spaceTrail (textParts parts) := by
  induction parts with
  | nil => intro acc; simp [textParts, spaceTrail]
  | cons p ps ih =>
    intro acc
    by_cases hp : p.type = "text".data
    · simp only [List.foldl, if_pos hp]
      rw [ih]
      simp [textParts, hp, spaceTrail, List.append_assoc]
    · simp only [List.foldl, if_neg hp]
      rw [ih]
      simp [textParts, hp]

theorem trail_eq_join (texts : List (List Char)) (h : texts ≠ []) :
    spaceTrail texts = joinWithSpace texts ++ " ".data := by
  induction texts with
  | nil => exact absurd rfl h
  | cons t ts ih =>
    cases ts with
    | nil => simp [joinWithSpace, spaceTrail]
    | cons t2 ts2 =>
      rw [show spaceTrail (t :: t2 :: ts2)
            = t ++ " ".data ++ spaceTrail (t2 :: ts2) from rfl]
      rw [ih (by simp)]
      simp [joinWithSpace, List.append_assoc]

/-- Claim C8 (amended): the receiver extracts the task text by joining the
`"text"`-kind parts, in their original order, with a single space and then
stripping leading/trailing whitespace from the result; parts of any other
kind are ignored, not rejected. -/
theorem extract_text_is_strip_of_join (parts : List A2APart) :
    a2a_extract_text parts = pyStrip (joinTextParts parts) := by
  unfold a2a_extract_text joinTextParts
  rw [extract_fold parts []]
  simp only [List.nil_append]
  by_cases h : textParts parts = []
  · rw [h]
    simp [joinWithSpace, spaceTrail]
  · rw [trail_eq_join _ h, pyStrip_append_space]

/-- Counterexample for C2: in the `stream` fan-out the hotel result is
awaited before the car call is sent, so not every call is in flight before
a result is awaited, and with latencies 10 and 20 the fan-out takes
10 + 20 = 30, exceeding the slowest peer. -/
theorem fanout_not_all_in_flight_counterexample :
    ¬ allInFlightBeforeAwait (streamCommTrace ("Plan a trip to Paris".data)) ∧
    elapsedTime (fun u => if u = hotelAgentUrl then 10 else 20)
        (streamCommTrace ("Plan a trip to Paris".data)) = 30 ∧
    max 10 20 < 30 := by
  refine ⟨by decide, by decide, by decide⟩

/-- Claim C2 (amended): within one planning operation both coordinators
issue the capability calls sequentially — the hotel call is sent and its
result awaited before the car call is sent — so the fan-out latency is the
sum of the two peers' latencies, not the maximum. -/
theorem fanout_sequential_hotel_before_car (query dest : List Char)
    (dur : List Char → Nat) :
    sendIndices (streamCommTrace query) = [0, 2] ∧
    recvIndices (streamCommTrace query) = [1, 3] ∧
    ¬ allInFlightBeforeAwait (streamCommTrace query) ∧
    elapsedTime dur (streamCommTrace query) = dur hotelAgentUrl + dur carAgentUrl ∧
    sendIndices (planTripCommTrace dest) = [0, 2] ∧
    recvIndices (planTripCommTrace dest) = [1, 3] ∧
    elapsedTime dur (planTripCommTrace dest) = dur hotelAgentUrl + dur carAgentUrl := by
  have hs : sendIndices (streamCommTrace query) = [0, 2] := by
    simp [sendIndices, streamCommTrace, List.enum, List.enumFrom, FanEvent.isSend,
      List.filter]
  have hr : recvIndices (streamCommTrace query) = [1, 3] := by
    simp [recvIndices, streamCommTrace, List.enum, List.enumFrom, FanEvent.isRecv,
      List.filter]
  have hs2 : sendIndices (planTripCommTrace dest) = [0, 2] := by
    simp [sendIndices, planTripCommTrace, List.enum, List.enumFrom, FanEvent.isSend,
      List.filter]
  have hr2 : recvIndices (planTripCommTrace dest) = [1, 3] := by
    simp [recvIndices, planTripCommTrace, List.enum, List.enumFrom, FanEvent.isRecv,
      List.filter]
  refine ⟨hs, hr, ?_, ?_, hs2, hr2, ?_⟩
  · intro hflight
    have := hflight 2 (by rw [hs]; simp) 1 (by rw [hr]; simp)
    omega
  · simp [elapsedTime, streamCommTrace, stepEvent, findSent, List.foldl]
  · simp [elapsedTime, planTripCommTrace, stepEvent, findSent, List.foldl]

/-- Claim C6: when the LLM parameter-extraction output cannot be parsed as
JSON, both capability agents proceed with the fixed default parameter set
(city `Paris`, the fixed date pair `2025-10-06`/`2025-10-07`, budget
`"any"`) and still produce the normal response template, never the error
branch. -/
theorem extraction_fallback_uses_fixed_defaults (key : Option (List Char))
    (outcome : SerperOutcome) :
    hotel_process_request (.content none) key outcome =
      hotelResponseTemplate ("Paris".data) "2025-10-06".data ("2025-10-07".data) 2 ("any".data)
        (renderHotelReply (search_hotels key ("Paris".data) "2025-10-06".data
          "2025-10-07".data ("any".data) outcome)) ∧
    car_process_request (.content none) key outcome =
      carResponseTemplate ("Paris".data) "2025-10-06".data ("2025-10-07".data) 25 ("any".data)
        (renderCarReply (search_car_rentals key ("Paris".data) "2025-10-06".data
          "2025-10-07".data ("any".data) outcome)) ∧
    (∀ msg, hotel_process_request (.content none) key outcome ≠
      "Error processing hotel booking request: ".data ++ msg) ∧
    (∀ msg, car_process_request (.content none) key outcome ≠
      "Error processing car rental request: ".data ++ msg) := by
  refine ⟨rfl, rfl, ?_, ?_⟩
  · intro msg h
    have h2 := congrArg List.head? h
    rw [show (hotel_process_request (.content none) key outcome).head?
          = some '\n' from rfl,
      show ("Error processing hotel booking request: ".data ++ msg).head?
          = some 'E' from rfl] at h2
    exact absurd h2 (by decide)
  · intro msg h
    have h2 := congrArg List.head? h
    rw [show (car_process_request (.content none) key outcome).head?
          = some '\n' from rfl,
      show ("Error processing car rental request: ".data ++ msg).head?
          = some 'E' from rfl] at h2
    exact absurd h2 (by decide)

/-- Counterexample for C5: the cited simple chat fallback endpoint
(`simple_hotel_executor.py`'s `/chat`) returns the agent reply as a bare
JSON string, not an object, so the response has no `"response"` field to
read. -/
theorem chat_bare_string_counterexample :
    chat_simple_hotel_executor ("Hotel options for Paris".data)
      = .jstr ("Hotel options for Paris".data) ∧
    (chat_simple_hotel_executor ("Hotel options for Paris".data)).getField
      "response".data = none :=
  ⟨rfl, rfl⟩

/-- Claim C5 (amended): the `/chat` handlers of `simple_executor.py`
(hotel) and `app/simple_executor.py` (car) respond with
`{"response": <reply>}`, readable from the `"response"` field; the `/chat`
handlers of `simple_hotel_executor.py`, `simple_car_executor.py` and the
a2a executors return the bare reply string, which has no `"response"`
field. -/
theorem chat_endpoint_response_field (reply : Json) (s : List Char) :
    (chat_simple_executor reply).getField ("response".data) = some reply ∧
    (chat_simple_hotel_executor s).getField ("response".data) = none :=
  ⟨rfl, rfl⟩

theorem foldl_initStep_conn (disc : List Char → Except (List Char) DiscoveredCard) :
    ∀ (addrs : List (List Char)) (st : ConnState),
      (∀ p ∈ st.connections, discOk disc p.2 = true) →
      ∀ p ∈ (addrs.foldl (initStep disc) st).connections, discOk disc p.2 = true := by
  intro addrs
  induction addrs with
  | nil => intro st h; exact h
  | cons a rest ih =>
    intro st h
    simp only [List.foldl]
    apply ih
    intro p hp
    unfold initStep at hp
    cases hda : disc a with
    | ok card =>
      rw [hda] at hp
      simp only [List.mem_cons] at hp
      rcases hp with hp | hp
      · subst hp
        unfold discOk
        rw [hda]
      · exact h p hp
    | error e =>
      rw [hda] at hp
      exact h p hp

theorem foldl_initStep_filter (disc : List Char → Except (List Char) DiscoveredCard) :
    ∀ (addrs : List (List Char)) (st : ConnState),
      addrs.foldl (initStep disc) st
        = (addrs.filter (discOk disc)).foldl (initStep disc) st := by
  intro addrs
  induction addrs with
  | nil => intro st; rfl
  | cons a rest ih =>
    intro st
    by_cases hd : discOk disc a = true
    · rw [List.filter_cons_of_pos hd]
      simp only [List.foldl]
      exact ih _
    · rw [List.filter_cons_of_neg (by simpa using hd)]
      simp only [List.foldl]
      rw [show initStep disc st a = st from ?_]
      · exact ih _
      · unfold initStep
        unfold discOk at hd
        cases hda : disc a with
        | ok card => rw [hda] at hd; simp at hd
        | error e => rfl

theorem lookupByKey_mem {α : Type} :
    ∀ (l : List (List Char × α)) (k : List Char) (v : α),
      lookupByKey l k = some v → (k, v) ∈ l := by
  intro l
  induction l with
  | nil => intro k v h; cases h
  | cons p rest ih =>
    intro k v h
    unfold lookupByKey at h
    by_cases hk : p.1 = k
    · rw [if_pos hk] at h
      cases h
      subst hk
      simp
    · rw [if_neg hk] at h
      right
      exact ih k v h

/-- Claim C7: a configured peer whose discovery fails does not abort
coordinator construction — the fold completes exactly as if the peer were
absent — the peer is excluded from the connection set, and no fan-out
sequence ever performs a network send to that peer's address. -/
theorem discovery_failure_excluded_from_fanout
    (addresses : List (List Char))
    (disc : List Char → Except (List Char) DiscoveredCard)
    (a e : List Char) (ha : a ∈ addresses) (he : disc a = .error e) :
    init_components addresses disc
        = init_components (addresses.filter (discOk disc)) disc ∧
    (∀ name url, (name, url) ∈ (init_components addresses disc).connections →
      discOk disc url = true) ∧
    (∀ name url, (name, url) ∈ (init_components addresses disc).connections →
      url ≠ a) ∧
    (∀ names, countSendsTo a (fanOutSends (init_components addresses disc) names) = 0) := by
  have hok : ∀ p ∈ (init_components addresses disc).connections,
      discOk disc p.2 = true := by
    apply foldl_initStep_conn disc addresses
    intro p hp
    cases hp
  have hnota : discOk disc a = false := by
    unfold discOk
    rw [he]
  refine ⟨?_, ?_, ?_, ?_⟩
  · unfold init_components
    rw [foldl_initStep_filter]
  · intro name url h
    exact hok (name, url) h
  · intro name url h hua
    have := hok (name, url) h
    rw [hua] at this
    rw [hnota] at this
    cases this
  · intro names
    induction names with
    | nil => rfl
    | cons n rest ih =>
      unfold fanOutSends at ih ⊢
      simp only [List.foldr]
      unfold countSendsTo at ih ⊢
      rw [List.countP_append]
      rw [ih]
      cases hl : lookupByKey (init_components addresses disc).connections n with
      | none =>
        simp [send_message_sends, hl]
      | some url =>
        have hmem := lookupByKey_mem _ n url hl
        have hne : url ≠ a := by
          intro hua
          have := hok (n, url) hmem
          rw [hua, hnota] at this
          cases this
        simp [send_message_sends, hl, List.countP_cons, hne]

/-- Discovery outcomes for the C7 witness scenario: the hotel peer
resolves a card, the car peer's discovery path returns HTTP 500. -/
def witnessDisc : List Char → Except (List Char) DiscoveredCard := fun addr =>
  if addr = "http://localhost:10002".data then
    .ok ⟨"Hotel Booking Agent".data, "hotel search".data⟩
  else .error ("HTTP 500".data)

/-- The configured peer addresses of the C7 witness scenario. -/
def witnessAddresses : List (List Char) :=
  ["http://localhost:10002".data, "http://localhost:10003".data]

/-- Witness for C7: with the hotel peer discoverable and the car peer's
discovery failing with an HTTP 500, construction succeeds as if the car
peer were absent, the car peer is excluded, and no fan-out attempt ever
sends to the car peer's address. -/
theorem discovery_failure_excluded_from_fanout_witness :
    "http://localhost:10003".data ∈ witnessAddresses ∧
    witnessDisc ("http://localhost:10003".data) = .error ("HTTP 500".data) ∧
    init_components witnessAddresses witnessDisc
        = init_components (witnessAddresses.filter (discOk witnessDisc)) witnessDisc ∧
    (∀ name url,
      (name, url) ∈ (init_components witnessAddresses witnessDisc).connections →
      discOk witnessDisc url = true) ∧
    (∀ name url,
      (name, url) ∈ (init_components witnessAddresses witnessDisc).connections →
      url ≠ "http://localhost:10003".data) ∧
    (∀ names, countSendsTo ("http://localhost:10003".data)
      (fanOutSends (init_components witnessAddresses witnessDisc) names) = 0) := by
  have h := discovery_failure_excluded_from_fanout witnessAddresses witnessDisc
    "http://localhost:10003".data ("HTTP 500".data) (by decide) (by rfl)
  exact ⟨by decide, by rfl, h.1, h.2.1, h.2.2.1, h.2.2.2⟩

/-- Claim C1: if exactly one capability peer fails (non-200 reply or a
raised exception: unreachable, timeout, protocol error) while the sibling
succeeds with nonempty content, the planner still finishes with the
compiled plan as its final yield, the failure is captured as an
`{"error": ...}` record and logged with status `"error"` (no exception
escapes `send_a2a_message`), and the sibling's content appears in the
plan while the failed side shows its fallback line. -/
theorem coordinator_fan_in_tolerates_single_peer_failure
    (f : TransportOutcome) (hf : f.isFailure = true)
    (b : PeerBody) (c : List Char) (hb : b.resultContent = some c) (hc : c ≠ [])
    (query dateStr : List Char) (hA cA : Bool) :
    (∃ m, send_a2a_message f = .errorDict m) ∧
    (streamYields query dateStr hA cA f (.ok b)).getLast?
      = some (.final (compileA2APlan query dateStr hA cA
          (send_a2a_message f) (.fromPeer b))) ∧
    streamLogEntries f (.ok b)
      = [("Hotel_Booking_Agent".data, "error".data),
         ("Car_Rental_Agent".data, "success".data)] ∧
    c <:+: compileA2APlan query dateStr hA cA (send_a2a_message f) (.fromPeer b) ∧
    hotelFallback <:+:
      compileA2APlan query dateStr hA cA (send_a2a_message f) (.fromPeer b) ∧
    (streamYields query dateStr hA cA (.ok b) f).getLast?
      = some (.final (compileA2APlan query dateStr hA cA
          (.fromPeer b) (send_a2a_message f))) ∧
    streamLogEntries (.ok b) f
      = [("Hotel_Booking_Agent".data, "success".data),
         ("Car_Rental_Agent".data, "error".data)] ∧
    c <:+: compileA2APlan query dateStr hA cA (.fromPeer b) (send_a2a_message f) ∧
    carFallback <:+:
      compileA2APlan query dateStr hA cA (.fromPeer b) (send_a2a_message f) := by
  obtain ⟨m, hm⟩ : ∃ m, send_a2a_message f = .errorDict m := by
    cases f with
    | ok b2 => simp [TransportOutcome.isFailure] at hf
    | httpError code t => exact ⟨_, rfl⟩
    | raised msg => exact ⟨_, rfl⟩
  refine ⟨⟨m, hm⟩, rfl, ?_, ?_, ?_, rfl, ?_, ?_, ?_⟩
  · unfold streamLogEntries
    rw [hm]
    rfl
  · rw [hm]
    simp only [compileA2APlan, extractContent, hb, Option.getD_some, ne_eq,
      not_true_eq_false, if_false, hc, not_false_eq_true, if_true,
      List.append_assoc]
    repeat
      first
        | exact infix_self_append _ _
        | apply infix_append_of_infix
  · rw [hm]
    simp only [compileA2APlan, extractContent, hb, Option.getD_some, ne_eq,
      not_true_eq_false, if_false, hc, not_false_eq_true, if_true,
      List.append_assoc]
    repeat
      first
        | exact infix_self_append _ _
        | apply infix_append_of_infix
  · unfold streamLogEntries
    rw [hm]
    rfl
  · rw [hm]
    simp only [compileA2APlan, extractContent, hb, Option.getD_some, ne_eq,
      not_true_eq_false, if_false, hc, not_false_eq_true, if_true,
      List.append_assoc]
    repeat
      first
        | exact infix_self_append _ _
        | apply infix_append_of_infix
  · rw [hm]
    simp only [compileA2APlan, extractContent, hb, Option.getD_some, ne_eq,
      not_true_eq_false, if_false, hc, not_false_eq_true, if_true,
      List.append_assoc]
    repeat
      first
        | exact infix_self_append _ _
        | apply infix_append_of_infix

/-- The failed-peer outcome of the C1 witness scenario: the POST raises a
connection error. -/
def witnessOutage : TransportOutcome := .raised ("Connection refused".data)

/-- The healthy sibling's 200 body in the C1 witness scenario. -/
def witnessCarBody : PeerBody := ⟨some ("Hertz car rental from $45 per day".data)⟩

/-- Witness for C1: with the hotel POST raising a connection error and the
car peer answering normally (and vice versa), the plan is still compiled
as the final yield, the outage is logged as a per-agent error record, and
the sibling's content appears in the plan. -/
theorem coordinator_fan_in_tolerates_single_peer_failure_witness :
    witnessOutage.isFailure = true ∧
    witnessCarBody.resultContent = some ("Hertz car rental from $45 per day".data) ∧
    "Hertz car rental from $45 per day".data ≠ ([] : List Char) ∧
    ((∃ m, send_a2a_message witnessOutage = .errorDict m) ∧
    (streamYields ("Plan a trip to Paris".data) "2025-10-06".data true false
        witnessOutage (.ok witnessCarBody)).getLast?
      = some (.final (compileA2APlan ("Plan a trip to Paris".data) "2025-10-06".data
          true false (send_a2a_message witnessOutage) (.fromPeer witnessCarBody))) ∧
    streamLogEntries witnessOutage (.ok witnessCarBody)
      = [("Hotel_Booking_Agent".data, "error".data),
         ("Car_Rental_Agent".data, "success".data)] ∧
    "Hertz car rental from $45 per day".data <:+:
      compileA2APlan ("Plan a trip to Paris".data) "2025-10-06".data true false
        (send_a2a_message witnessOutage) (.fromPeer witnessCarBody) ∧
    hotelFallback <:+:
      compileA2APlan ("Plan a trip to Paris".data) "2025-10-06".data true false
        (send_a2a_message witnessOutage) (.fromPeer witnessCarBody) ∧
    (streamYields ("Plan a trip to Paris".data) "2025-10-06".data true false
        (.ok witnessCarBody) witnessOutage).getLast?
      = some (.final (compileA2APlan ("Plan a trip to Paris".data) "2025-10-06".data
          true false (.fromPeer witnessCarBody) (send_a2a_message witnessOutage))) ∧
    streamLogEntries (.ok witnessCarBody) witnessOutage
      = [("Hotel_Booking_Agent".data, "success".data),
         ("Car_Rental_Agent".data, "error".data)] ∧
    "Hertz car rental from $45 per day".data <:+:
      compileA2APlan ("Plan a trip to Paris".data) "2025-10-06".data true false
        (.fromPeer witnessCarBody) (send_a2a_message witnessOutage) ∧
    carFallback <:+:
      compileA2APlan ("Plan a trip to Paris".data) "2025-10-06".data true false
        (.fromPeer witnessCarBody) (send_a2a_message witnessOutage)) :=
  ⟨rfl, rfl, by decide,
   coordinator_fan_in_tolerates_single_peer_failure witnessOutage rfl
     witnessCarBody ("Hertz car rental from $45 per day".data) rfl (by decide)
     "Plan a trip to Paris".data ("2025-10-06".data) true false⟩

/-- Counterexample for C3: with the Serper API key missing, the search
step returns an `{"error": ...}` JSON string instead of raising, and the
agent folds that string into its normal completed response: the A2A result
keeps status `"success"`, not `"error"`. -/
theorem search_failure_not_status_error_counterexample :
    search_hotels none ("Paris".data) "2025-10-06".data ("2025-10-07".data) "any".data
        (.ok none) = .errorReply ("SERPER_API_KEY not found".data) ∧
    (a2aMessageResponse ("msg_1".data)
        (hotel_process_request (.content none) none (.ok none))).status
      = "success".data ∧
    (a2aMessageResponse ("msg_1".data)
        (hotel_process_request (.content none) none (.ok none))).status
      ≠ "error".data ∧
    "\x7b\"error\": \"SERPER_API_KEY not found\"\x7d".data <:+:
      (a2aMessageResponse ("msg_1".data)
        (hotel_process_request (.content none) none (.ok none))).content := by
  refine ⟨rfl, rfl, by decide, ?_⟩
  show ("\x7b\"error\": \"SERPER_API_KEY not found\"\x7d".data) <:+:
    hotel_process_request (.content none) none (.ok none)
  decide

/-- Claim C3 (amended): when the search collaborator fails (key missing or
a raised network/non-2xx error), the capability agent does not produce a
status=error result: the search step returns an `{"error": ...}` string,
the agent embeds it in its normal completed response template (so no
structured result items exist, the reply being the error object), and the
executor's A2A result keeps status `"success"`. -/
theorem search_failure_folded_into_completed_response
    (parsed : Option HotelInfoDict) (key : Option (List Char))
    (outcome : SerperOutcome) (mid : List Char)
    (hfail : key = none ∨ ∃ m, outcome = .fail m) :
    ∃ emsg,
      search_hotels key ((parsed.getD defaultHotelInfo).location.getD ("Paris".data))
          ((parsed.getD defaultHotelInfo).check_in.getD ("2025-10-06".data))
          ((parsed.getD defaultHotelInfo).check_out.getD ("2025-10-07".data))
          ((parsed.getD defaultHotelInfo).budget.getD ("any".data)) outcome
        = .errorReply emsg ∧
      hotel_process_request (.content parsed) key outcome
        = hotelResponseTemplate
            ((parsed.getD defaultHotelInfo).location.getD ("Paris".data))
            ((parsed.getD defaultHotelInfo).check_in.getD ("2025-10-06".data))
            ((parsed.getD defaultHotelInfo).check_out.getD ("2025-10-07".data))
            ((parsed.getD defaultHotelInfo).guests.getD 2)
            ((parsed.getD defaultHotelInfo).budget.getD ("any".data))
            (renderHotelReply (.errorReply emsg)) ∧
      renderHotelReply (.errorReply emsg) <:+:
        hotel_process_request (.content parsed) key outcome ∧
      (a2aMessageResponse mid (hotel_process_request (.content parsed) key outcome)).status
        = "success".data := by
  have hsearch : ∃ emsg,
      search_hotels key ((parsed.getD defaultHotelInfo).location.getD ("Paris".data))
          ((parsed.getD defaultHotelInfo).check_in.getD ("2025-10-06".data))
          ((parsed.getD defaultHotelInfo).check_out.getD ("2025-10-07".data))
          ((parsed.getD defaultHotelInfo).budget.getD ("any".data)) outcome
        = .errorReply emsg := by
    rcases hfail with hk | ⟨m, ho⟩
    · subst hk
      exact ⟨_, rfl⟩
    · subst ho
      cases key with
      | none => exact ⟨_, rfl⟩
      | some k => exact ⟨_, rfl⟩
  obtain ⟨emsg, hs⟩ := hsearch
  have hmain : hotel_process_request (.content parsed) key outcome
      = hotelResponseTemplate
          ((parsed.getD defaultHotelInfo).location.getD ("Paris".data))
          ((parsed.getD defaultHotelInfo).check_in.getD ("2025-10-06".data))
          ((parsed.getD defaultHotelInfo).check_out.getD ("2025-10-07".data))
          ((parsed.getD defaultHotelInfo).guests.getD 2)
          ((parsed.getD defaultHotelInfo).budget.getD ("any".data))
          (renderHotelReply (.errorReply emsg)) := by
    simp only [hotel_process_request]
    rw [hs]
  refine ⟨emsg, hs, hmain, ?_, rfl⟩
  rw [hmain]
  simp only [hotelResponseTemplate, List.append_assoc]
  repeat
    first
      | exact infix_self_append _ _
      | apply infix_append_of_infix

/-- Witness for the amended C3: the missing-key scenario at concrete
inputs. -/
theorem search_failure_folded_into_completed_response_witness :
    ((none : Option (List Char)) = none ∨ ∃ m, SerperOutcome.ok none = .fail m) ∧
    (∃ emsg,
      search_hotels none ("Paris".data) "2025-10-06".data ("2025-10-07".data) "any".data
          (.ok none) = .errorReply emsg ∧
      hotel_process_request (.content none) none (.ok none)
        = hotelResponseTemplate ("Paris".data) "2025-10-06".data ("2025-10-07".data) 2
            "any".data (renderHotelReply (.errorReply emsg)) ∧
      renderHotelReply (.errorReply emsg) <:+:
        hotel_process_request (.content none) none (.ok none) ∧
      (a2aMessageResponse ("msg_2".data)
          (hotel_process_request (.content none) none (.ok none))).status
        = "success".data) :=
  ⟨Or.inl rfl,
   search_failure_folded_into_completed_response none none (.ok none) "msg_2".data
     (Or.inl rfl)⟩

/-- Witness for the amended C2 at a concrete query, destination and
latency assignment (hotel 10, car 20): the traces are sequential and the
fan-out elapsed time is additive. -/
theorem fanout_sequential_hotel_before_car_witness :
    sendIndices (streamCommTrace ("go to paris".data)) = [0, 2] ∧
    recvIndices (streamCommTrace ("go to paris".data)) = [1, 3] ∧
    ¬ allInFlightBeforeAwait (streamCommTrace ("go to paris".data)) ∧
    elapsedTime (fun u => if u = hotelAgentUrl then 10 else 20)
        (streamCommTrace ("go to paris".data))
      = (fun u => if u = hotelAgentUrl then 10 else 20) hotelAgentUrl
        + (fun u => if u = hotelAgentUrl then 10 else 20) carAgentUrl ∧
    sendIndices (planTripCommTrace ("Paris".data)) = [0, 2] ∧
    recvIndices (planTripCommTrace ("Paris".data)) = [1, 3] ∧
    elapsedTime (fun u => if u = hotelAgentUrl then 10 else 20)
        (planTripCommTrace ("Paris".data))
      = (fun u => if u = hotelAgentUrl then 10 else 20) hotelAgentUrl
        + (fun u => if u = hotelAgentUrl then 10 else 20) carAgentUrl :=
  fanout_sequential_hotel_before_car ("go to paris".data) ("Paris".data)
    (fun u => if u = hotelAgentUrl then 10 else 20)

/-- Witness for C6 at concrete inputs (no Serper key, a 2xx search body
without an organic list): the fallback defaults flow into the search call
and the normal templates are produced. -/
theorem extraction_fallback_uses_fixed_defaults_witness :
    (hotel_process_request (.content none) none (.ok none) =
      hotelResponseTemplate ("Paris".data) ("2025-10-06".data) ("2025-10-07".data)
        2 ("any".data)
        (renderHotelReply (search_hotels none ("Paris".data) ("2025-10-06".data)
          ("2025-10-07".data) ("any".data) (.ok none))) ∧
    car_process_request (.content none) none (.ok none) =
      carResponseTemplate ("Paris".data) ("2025-10-06".data) ("2025-10-07".data)
        25 ("any".data)
        (renderCarReply (search_car_rentals none ("Paris".data) ("2025-10-06".data)
          ("2025-10-07".data) ("any".data) (.ok none))) ∧
    (∀ msg, hotel_process_request (.content none) none (.ok none) ≠
      "Error processing hotel booking request: ".data ++ msg) ∧
    (∀ msg, car_process_request (.content none) none (.ok none) ≠
      "Error processing car rental request: ".data ++ msg)) :=
  extraction_fallback_uses_fixed_defaults none (.ok none)

end TravelPlanning
